import Mathlib

/-!
Shallow embedding of `generate_token.py` (GA Ticketing System JWT token
generator) and verification of its specification claims.

Modelling conventions:
* Timestamps are `Nat` seconds since the epoch; `datetime.utcnow()` becomes
  an explicit parameter `now`, and `timedelta(hours=24)` is `24 * 3600`
  seconds (PyJWT serialises `datetime` claims as integer POSIX timestamps).
* The random draw of `uuid.uuid4()` becomes an explicit `String` parameter
  (one fresh draw per call of `generate_token`).
* Python dict values in the payload are modelled by the inductive `Value`
  (strings, integers, lists of strings — the only shapes the program uses).
* A user profile is a Python dict, modelled as an association list
  `List (String × Value)`; `d[k]` is `List.lookup k d`, which returns
  `none` exactly when Python raises `KeyError`.
* `jwt.encode` produces the compact three-segment JWS form; we keep the
  three segments structurally as `SignedToken` (decoded header, decoded
  payload, signature).  The byte-level base64url encoding and the
  HMAC-SHA256 digest are abstracted: the signature is modelled as a
  deterministic record `Sig` of exactly the inputs the digest depends on
  (secret, header, payload, algorithm).  No claim inspects digest bytes.
* The file system is an association list from path to decoded JSON content;
  `open(path, "w")` + `json.dump` replace the entry at that path.
-/

/-- A JSON-like value as used in the token payload: the program only ever
stores strings, integer timestamps, and a list of strings (`aud`). -/
inductive Value where
  | str (s : String)
  | int (n : Nat)
  | strList (l : List String)
deriving DecidableEq, Repr

/-- Model of the HMAC-SHA256 signature segment: a deterministic function of
exactly the signing inputs (shared secret, protected header, payload,
algorithm name).  The digest bytes themselves are abstracted; only
determinism and input-dependence matter for the claims. -/
structure Sig where
  secret : String
  signedHeader : List (String × Value)
  signedPayload : List (String × Value)
  alg : String
deriving DecidableEq, Repr

/-- The compact JWS token produced by `jwt.encode`: three segments —
decoded protected header, decoded claims payload, and signature. -/
structure SignedToken where
  header : List (String × Value)
  payload : List (String × Value)
  signature : Sig
deriving DecidableEq, Repr

/-- Line 13: `JWT_SECRET = "your-super-secret-jwt-key-change-this-in-production"`. -/
def JWT_SECRET : String := "your-super-secret-jwt-key-change-this-in-production"

/-- Line 14: `JWT_ISSUER = "ga-ticketing-system"`. -/
def JWT_ISSUER : String := "ga-ticketing-system"

/-- Line 15: `ALGORITHM = "HS256"`. -/
def ALGORITHM : String := "HS256"

/-- Model of `jwt.encode(payload, secret, algorithm)`: builds the protected header
for the given algorithm, keeps the payload as the middle segment, and signs
header and payload with the secret. -/
def jwtEncode (payload : List (String × Value)) (secret : String)
    (alg : String) : SignedToken :=
  { header := [("alg", .str alg), ("typ", .str "JWT")]
    payload := payload
    signature := { secret := secret, signedHeader := [("alg", .str alg), ("typ", .str "JWT")]
                   signedPayload := payload, alg := alg } }

/-- Lines 17–42, `generate_token(user_info)`: captures the current time
once (`now`), computes `expires_at = now + 24h`, draws a fresh UUID
(`jtiDraw`), assembles the claims payload in source order, and signs it.
Each `user_info[...]` subscript is a dict lookup that fails (Python
`KeyError`) when the key is absent, so the result is an `Option`. -/
def generate_token (now : Nat) (jtiDraw : String)
    (user_info : List (String × Value)) : Option SignedToken := do
  let uid ← List.lookup "id" user_info
  let emp ← List.lookup "employee_id" user_info
  let nm ← List.lookup "name" user_info
  let em ← List.lookup "email" user_info
  let rl ← List.lookup "role" user_info
  let dep ← List.lookup "department" user_info
  let expires_at := now + 24 * 3600
  let payload : List (String × Value) :=
    [ ("user_id", uid)
    , ("employee_id", emp)
    , ("name", nm)
    , ("email", em)
    , ("role", rl)
    , ("department", dep)
    , ("jti", .str jtiDraw)
    , ("iss", .str JWT_ISSUER)
    , ("sub", uid)
    , ("aud", .strList ["ga-ticketing-client"])
    , ("exp", .int expires_at)
    , ("nbf", .int now)
    , ("iat", .int now) ]
  return jwtEncode payload JWT_SECRET ALGORITHM

/-- Lines 49–56: the hardcoded requester profile. -/
def requesterUser : List (String × Value) :=
  [ ("id", .str "req-001"), ("employee_id", .str "EMP001")
  , ("name", .str "John Requester")
  , ("email", .str "john.requester@company.com")
  , ("role", .str "requester"), ("department", .str "IT") ]

/-- Lines 57–64: the hardcoded approver profile. -/
def approverUser : List (String × Value) :=
  [ ("id", .str "app-001"), ("employee_id", .str "EMP002")
  , ("name", .str "Jane Approver")
  , ("email", .str "jane.approver@company.com")
  , ("role", .str "approver"), ("department", .str "Finance") ]

/-- Lines 65–72: the hardcoded admin profile. -/
def adminUser : List (String × Value) :=
  [ ("id", .str "adm-001"), ("employee_id", .str "EMP003")
  , ("name", .str "Admin User")
  , ("email", .str "admin@company.com")
  , ("role", .str "admin"), ("department", .str "GA") ]

/-- Lines 48–73: the static role table `users`, in declaration (dict
insertion) order. -/
def users : List (String × List (String × Value)) :=
  [ ("requester", requesterUser)
  , ("approver", approverUser)
  , ("admin", adminUser) ]

/-- One line printed to standard output.  Fixed text is kept verbatim;
lines that interpolate a dict value or a token carry it structurally
(the base64url rendering of a token inside an f-string is part of the
abstracted encoding). -/
inductive OutputLine where
  | text (s : String)
  | blockLine (label : String) (v : Value)
  | tokenEcho (t : SignedToken)
  | exportLine (varName : String) (t : SignedToken)
deriving DecidableEq, Repr

/-- The file system: decoded JSON content by path.  `test_tokens.json`
holds a role-to-token mapping, so content is `List (String × SignedToken)`. -/
def FS : Type := List (String × List (String × SignedToken))

/-- Model of `open(path, "w")` followed by `json.dump(content, f)`: truncate and
replace whatever was previously stored at `path`. -/
def writeF (fs : FS) (path : String)
    (content : List (String × SignedToken)) : FS :=
  (path, content) :: List.filter (fun e => e.1 != path) fs

/-- Lines 80–89, the generation loop of `main`: iterates the role table in
declaration order; for each entry generates a token (role `i` consumes the
`i`-th UUID draw of the run), stores it under the role name, and prints the
role's console block.  A failed generation propagates (no further entries,
no result). -/
def genLoop (jtis : Nat → String) (now : Nat) :
    List (String × List (String × Value)) → Nat →
    Option (List (String × SignedToken) × List OutputLine)
  | [], _ => some ([], [])
  | (role, user_info) :: rest, i => do
    let t ← generate_token now (jtis i) user_info
    let nm ← List.lookup "name" user_info
    let em ← List.lookup "email" user_info
    let rl ← List.lookup "role" user_info
    let (toks, lines) ← genLoop jtis now rest (i + 1)
    return ((role, t) :: toks,
      [ .text (role.toUpper ++ " USER:")
      , .blockLine "  Name: " nm
      , .blockLine "  Email: " em
      , .blockLine "  Role: " rl
      , .tokenEcho t
      , .text "" ] ++ lines)

/-- What a completed run of `main` produced: the in-memory token mapping
and everything printed to standard output. -/
structure RunOutput where
  tokens : List (String × SignedToken)
  stdout : List OutputLine
deriving Repr

/-- Lines 44–100, `main()`, over an arbitrary role table (the source
hardcodes `users`; the loop itself is table-generic): print the banner,
run the generation loop, write the mapping to `test_tokens.json`, print
the closing text and the three export lines (whose tokens come from dict
lookups `tokens["requester"]` etc.).  If the loop fails, the exception
propagates before the file is opened: no write, no result.  If an export
lookup fails, the file is already written but the run still aborts. -/
def runMain (table : List (String × List (String × Value)))
    (jtis : Nat → String) (now : Nat) (fs : FS) : Option RunOutput × FS :=
  match genLoop jtis now table 0 with
  | none => (none, fs)
  | some (toks, blockLines) =>
    let fs2 := writeF fs "test_tokens.json" toks
    match List.lookup "requester" toks, List.lookup "approver" toks,
        List.lookup "admin" toks with
    | some tr, some ta, some tad =>
      (some
        { tokens := toks
          stdout :=
            [ .text "GA Ticketing System - JWT Token Generator"
            , .text (String.mk (List.replicate 50 '='))
            , .text "" ] ++ blockLines ++
            [ .text "Tokens saved to: test_tokens.json"
            , .text ""
            , .text "Usage examples:"
            , .exportLine "REQUESTER_TOKEN" tr
            , .exportLine "APPROVER_TOKEN" ta
            , .exportLine "ADMIN_TOKEN" tad ] }, fs2)
    | _, _, _ => (none, fs2)

/-- The whole-process outcome: exit code, standard output, final file
system. -/
structure ScriptRun where
  exitCode : Nat
  stdout : List OutputLine
  fs : FS

/-- Lines 107–108: the remediation message the `except ImportError`
handler would print. -/
def installHintLines : List OutputLine :=
  [ .text "Error: PyJWT is not installed."
  , .text "Install it with: pip install PyJWT" ]

/-- Lines 102–111: the `if __name__ == "__main__":` block in isolation —
`try: import jwt / except ImportError: print(...); exit(1)` and then
`main()`.  When the library is absent this block prints the two
remediation lines and exits 1; otherwise it runs `main`. -/
def mainGuard (jwtAvailable : Bool) (jtis : Nat → String) (now : Nat)
    (fs : FS) : ScriptRun :=
  if jwtAvailable then
    match runMain users jtis now fs with
    | (some out, fs2) => { exitCode := 0, stdout := out.stdout, fs := fs2 }
    | (none, fs2) => { exitCode := 1, stdout := [], fs := fs2 }
  else
    { exitCode := 1, stdout := installHintLines, fs := fs }

/-- Executing the script as a process.  Python evaluates the module-level
statements first, so line 7 (`import jwt`) runs before the `__main__`
block: when PyJWT is absent, that import raises an uncaught `ImportError`
— the interpreter prints a traceback to stderr and exits with code 1
before `mainGuard` (lines 102–111) is ever reached, so nothing is printed
to stdout and no token work happens. -/
def script (jwtAvailable : Bool) (jtis : Nat → String) (now : Nat)
    (fs : FS) : ScriptRun :=
  if jwtAvailable then mainGuard jwtAvailable jtis now fs
  else { exitCode := 1, stdout := [], fs := fs }

/-- The tokens interpolated into the printed `Token:` console lines, in
print order. -/
def echoedTokens (lines : List OutputLine) : List SignedToken :=
  lines.filterMap fun l => match l with
    | .tokenEcho t => some t
    | _ => none

/-- The `(variable name, token)` pairs of the printed
`export NAME="token"` lines, in print order. -/
def exportedTokens (lines : List OutputLine) : List (String × SignedToken) :=
  lines.filterMap fun l => match l with
    | .exportLine n t => some (n, t)
    | _ => none

/-- Inversion for `generate_token`: it returns a token exactly when the six
profile lookups succeed, and the token is the signed payload assembled from
the looked-up values. -/
theorem generate_token_eq_some (now : Nat) (jti : String)
    (u : List (String × Value)) (t : SignedToken) :
    generate_token now jti u = some t ↔
    ∃ uid emp nm em rl dep,
      List.lookup "id" u = some uid ∧
      List.lookup "employee_id" u = some emp ∧
      List.lookup "name" u = some nm ∧
      List.lookup "email" u = some em ∧
      List.lookup "role" u = some rl ∧
      List.lookup "department" u = some dep ∧
      t = jwtEncode
        [ ("user_id", uid), ("employee_id", emp), ("name", nm)
        , ("email", em), ("role", rl), ("department", dep)
        , ("jti", .str jti), ("iss", .str JWT_ISSUER), ("sub", uid)
        , ("aud", .strList ["ga-ticketing-client"])
        , ("exp", .int (now + 24 * 3600)), ("nbf", .int now)
        , ("iat", .int now) ] JWT_SECRET ALGORITHM := by
  simp only [generate_token, Option.bind_eq_some, Option.some.injEq, bind,
    Option.pure_def, Option.some_inj]
  constructor
  · rintro ⟨uid, h1, emp, h2, nm, h3, em, h4, rl, h5, dep, h6, h7⟩
    exact ⟨uid, emp, nm, em, rl, dep, h1, h2, h3, h4, h5, h6, h7.symm⟩
  · rintro ⟨uid, emp, nm, em, rl, dep, h1, h2, h3, h4, h5, h6, h7⟩
    exact ⟨uid, h1, emp, h2, nm, h3, em, h4, rl, h5, dep, h6, h7.symm⟩

/-- C1: for every token produced by `generate_token`, the decoded `nbf`,
`iat`, `exp` claims satisfy `nbf ≤ iat ≤ exp`, with `iat = nbf =` the
generation time captured once at the start of the call, and
`exp − iat = 86400` seconds (24 hours). -/
theorem C1_token_timestamps (now : Nat) (jti : String)
    (u : List (String × Value)) (t : SignedToken)
    (h : generate_token now jti u = some t) :
    ∃ nbfV iatV expV : Nat,
      List.lookup "nbf" t.payload = some (.int nbfV) ∧
      List.lookup "iat" t.payload = some (.int iatV) ∧
      List.lookup "exp" t.payload = some (.int expV) ∧
      nbfV = now ∧ iatV = now ∧
      nbfV ≤ iatV ∧ iatV ≤ expV ∧ expV - iatV = 86400 := by
  obtain ⟨uid, emp, nm, em, rl, dep, _, _, _, _, _, _, ht⟩ :=
    (generate_token_eq_some now jti u t).mp h
  subst ht
  exact ⟨now, now, now + 24 * 3600, rfl, rfl, rfl, rfl, rfl,
    Nat.le_refl _, Nat.le_add_right _ _, by omega⟩

/-- Witness for C1 at a concrete input: the admin profile, time 5,
UUID draw "w-c1". -/
theorem C1_token_timestamps_witness :
    ∃ t, generate_token 5 "w-c1" adminUser = some t ∧
      ∃ nbfV iatV expV : Nat,
        List.lookup "nbf" t.payload = some (.int nbfV) ∧
        List.lookup "iat" t.payload = some (.int iatV) ∧
        List.lookup "exp" t.payload = some (.int expV) ∧
        nbfV = 5 ∧ iatV = 5 ∧
        nbfV ≤ iatV ∧ iatV ≤ expV ∧ expV - iatV = 86400 :=
  ⟨_, rfl, C1_token_timestamps 5 "w-c1" adminUser _ rfl⟩

/-- C2: for each of the three fixed role profiles, `generate_token`
returns a signed token in the three-segment form (header, payload,
signature) whose decoded payload carries `sub` = the profile's id and
`role` = the profile's role string; for the admin profile the payload
also carries the fixed `aud` list and the fixed issuer. -/
theorem C2_role_claims (now : Nat) (jti : String) :
    (∃ t, generate_token now jti requesterUser = some t ∧
      t.header = [("alg", .str "HS256"), ("typ", .str "JWT")] ∧
      List.lookup "sub" t.payload = some (.str "req-001") ∧
      List.lookup "role" t.payload = some (.str "requester")) ∧
    (∃ t, generate_token now jti approverUser = some t ∧
      t.header = [("alg", .str "HS256"), ("typ", .str "JWT")] ∧
      List.lookup "sub" t.payload = some (.str "app-001") ∧
      List.lookup "role" t.payload = some (.str "approver")) ∧
    (∃ t, generate_token now jti adminUser = some t ∧
      t.header = [("alg", .str "HS256"), ("typ", .str "JWT")] ∧
      List.lookup "sub" t.payload = some (.str "adm-001") ∧
      List.lookup "role" t.payload = some (.str "admin") ∧
      List.lookup "aud" t.payload = some (.strList ["ga-ticketing-client"]) ∧
      List.lookup "iss" t.payload = some (.str "ga-ticketing-system")) :=
  ⟨⟨_, rfl, rfl, rfl, rfl⟩, ⟨_, rfl, rfl, rfl, rfl⟩,
   ⟨_, rfl, rfl, rfl, rfl, rfl, rfl⟩⟩

/-- Counterexample to C5 as stated: an input profile with absent fields
does NOT propagate them into the payload — the call fails (Python raises
`KeyError` on the first missing subscript). -/
theorem C5_counterexample : generate_token 0 "j0" [] = none := rfl

/-- C5 (amended): `generate_token` performs no validation of the field
VALUES: whatever values the six required keys hold — malformed or not —
propagate into the signed payload as-is (an absent key, by contrast,
makes the call fail). -/
theorem C5_no_validation (now : Nat) (jti : String)
    (v1 v2 v3 v4 v5 v6 : Value) :
    ∃ t, generate_token now jti
        [ ("id", v1), ("employee_id", v2), ("name", v3)
        , ("email", v4), ("role", v5), ("department", v6) ] = some t ∧
      List.lookup "user_id" t.payload = some v1 ∧
      List.lookup "employee_id" t.payload = some v2 ∧
      List.lookup "name" t.payload = some v3 ∧
      List.lookup "email" t.payload = some v4 ∧
      List.lookup "role" t.payload = some v5 ∧
      List.lookup "department" t.payload = some v6 ∧
      List.lookup "sub" t.payload = some v1 :=
  ⟨_, rfl, rfl, rfl, rfl, rfl, rfl, rfl, rfl⟩

/-- Counterexample to C6 as stated: two calls with the same profile and
the same captured time do NOT return the same token — each call draws a
fresh random UUID for `jti` (line 29), so differing draws yield differing
tokens. -/
theorem C6_counterexample :
    generate_token 0 "00000000-0000-4000-8000-000000000001" adminUser ≠
    generate_token 0 "00000000-0000-4000-8000-000000000002" adminUser := by
  decide

/-- C6 (amended): `generate_token` has no side effects beyond its return
value, and its result is deterministic given the input profile, the
captured time, AND the fresh UUID draw: two calls agreeing on all three
return the same token. -/
theorem C6_deterministic (now1 now2 : Nat) (j1 j2 : String)
    (u1 u2 : List (String × Value))
    (hn : now1 = now2) (hj : j1 = j2) (hu : u1 = u2) :
    generate_token now1 j1 u1 = generate_token now2 j2 u2 := by
  subst hn; subst hj; subst hu; rfl

/-- Witness for C6 (amended) at a concrete input. -/
theorem C6_deterministic_witness :
    generate_token 7 "w-c6" adminUser = generate_token 7 "w-c6" adminUser :=
  C6_deterministic 7 7 "w-c6" "w-c6" adminUser adminUser rfl rfl rfl

/-- C9: every token carries a `jti` claim equal to the fresh UUID drawn
for that call, so any two calls whose UUID draws differ produce tokens
with different decoded `jti` values. -/
theorem C9_jti_fresh (now1 now2 : Nat) (j1 j2 : String)
    (u1 u2 : List (String × Value)) (t1 t2 : SignedToken)
    (hne : j1 ≠ j2)
    (h1 : generate_token now1 j1 u1 = some t1)
    (h2 : generate_token now2 j2 u2 = some t2) :
    List.lookup "jti" t1.payload = some (.str j1) ∧
    List.lookup "jti" t2.payload = some (.str j2) ∧
    List.lookup "jti" t1.payload ≠ List.lookup "jti" t2.payload := by
  obtain ⟨_, _, _, _, _, _, _, _, _, _, _, _, ht1⟩ :=
    (generate_token_eq_some now1 j1 u1 t1).mp h1
  obtain ⟨_, _, _, _, _, _, _, _, _, _, _, _, ht2⟩ :=
    (generate_token_eq_some now2 j2 u2 t2).mp h2
  subst ht1; subst ht2
  refine ⟨rfl, rfl, fun h => ?_⟩
  exact hne (Value.str.inj (Option.some.inj h))

/-- If a profile in the role table makes `generate_token` fail, the
generation loop as a whole fails, wherever in the table the profile
sits. -/
theorem genLoop_none_of_fail (jtis : Nat → String) (now : Nat)
    (role : String) (u : List (String × Value)) :
    ∀ (table : List (String × List (String × Value))) (i : Nat),
      (role, u) ∈ table → (∀ n j, generate_token n j u = none) →
      genLoop jtis now table i = none := by
  intro table
  induction table with
  | nil => intro i hmem _; cases hmem
  | cons hd tl ih =>
    intro i hmem hfail
    obtain ⟨r0, u0⟩ := hd
    simp only [List.mem_cons] at hmem
    rcases hmem with heq | hmem2
    · cases heq
      simp [genLoop, hfail now (jtis i)]
    · have htl := ih (i + 1) hmem2 hfail
      cases hgt : generate_token now (jtis i) u0
      · simp [genLoop, hgt]
      · cases hnm : List.lookup "name" u0
        · simp [genLoop, hgt, hnm]
        · cases hem : List.lookup "email" u0
          · simp [genLoop, hgt, hnm, hem]
          · cases hrl : List.lookup "role" u0
            · simp [genLoop, hgt, hnm, hem, hrl]
            · simp [genLoop, hgt, hnm, hem, hrl, htl]

/-- C3: after a run on the static profile table, the key list of the
token mapping — and of the content persisted at `test_tokens.json` — is
exactly `requester, approver, admin`, in order, with no role skipped or
duplicated. -/
theorem C3_role_keys (now : Nat) (jtis : Nat → String) (fs : FS) :
    ∃ out fs2, runMain users jtis now fs = (some out, fs2) ∧
      out.tokens.map Prod.fst = ["requester", "approver", "admin"] ∧
      (out.tokens.map Prod.fst).Nodup ∧
      List.lookup "test_tokens.json" fs2 = some out.tokens := by
  refine ⟨_, _, rfl, rfl, ?_, rfl⟩
  show (["requester", "approver", "admin"] : List String).Nodup
  decide

/-- C7: if `generate_token` fails for any role of the table, the run
aborts with no write — the file system (any pre-existing
`test_tokens.json` included) is left exactly as it was, and no bundle is
produced. -/
theorem C7_no_write_on_failure
    (table : List (String × List (String × Value)))
    (jtis : Nat → String) (now : Nat) (fs : FS)
    (role : String) (u : List (String × Value))
    (hmem : (role, u) ∈ table)
    (hfail : ∀ n j, generate_token n j u = none) :
    runMain table jtis now fs = (none, fs) := by
  unfold runMain
  rw [genLoop_none_of_fail jtis now role u table 0 hmem hfail]

/-- Witness for C7: a table whose single profile lacks every field, run
against a file system that already holds a stale `test_tokens.json`; the
stale file survives untouched and no output is produced. -/
theorem C7_no_write_on_failure_witness :
    runMain [("broken", [])] (fun _ => "w-c7") 0
      [("test_tokens.json", [("stale", jwtEncode [] "" "")])] =
    (none, [("test_tokens.json", [("stale", jwtEncode [] "" "")])]) :=
  C7_no_write_on_failure [("broken", [])] (fun _ => "w-c7") 0
    [("test_tokens.json", [("stale", jwtEncode [] "" "")])] "broken" []
    (by simp) (fun _ _ => rfl)

/-- C8: every run writes the role-to-token mapping to the fixed path
`test_tokens.json`, fully overwriting whatever was there: the persisted
content is the current mapping (keys exactly the three roles) and is
independent of the prior file-system state, so no stale key survives. -/
theorem C8_overwrite (now : Nat) (jtis : Nat → String) (fs : FS) :
    ∃ toks,
      List.lookup "test_tokens.json" (runMain users jtis now fs).2 =
        some toks ∧
      toks.map Prod.fst = ["requester", "approver", "admin"] ∧
      ∀ fs2 : FS,
        List.lookup "test_tokens.json" (runMain users jtis now fs2).2 =
          some toks :=
  ⟨_, rfl, rfl, fun _ => rfl⟩

/-- C10: within a single run the three output channels agree: the
persisted file holds exactly the in-memory mapping, the `Token:` console
line of each role's block carries the same token the mapping stores for
that role (same order), and the three export lines interpolate exactly
the mapping's values for requester, approver, and admin. -/
theorem C10_output_consistency (now : Nat) (jtis : Nat → String)
    (fs : FS) :
    ∃ out fs2 t1 t2 t3,
      runMain users jtis now fs = (some out, fs2) ∧
      out.tokens = [("requester", t1), ("approver", t2), ("admin", t3)] ∧
      List.lookup "test_tokens.json" fs2 = some out.tokens ∧
      echoedTokens out.stdout = [t1, t2, t3] ∧
      exportedTokens out.stdout =
        [ ("REQUESTER_TOKEN", t1), ("APPROVER_TOKEN", t2)
        , ("ADMIN_TOKEN", t3) ] :=
  ⟨_, _, _, _, _, rfl, rfl, rfl, rfl, rfl⟩

/-- C4 (the code, at the failing input): with PyJWT absent the process
does exit non-zero with no token work done (the file system is
untouched), but it prints NO remediation message — the module-level
`import jwt` on line 7 raises an uncaught `ImportError` before the
`try/except` guard of lines 102–109 can run, so the installation hint
that guard would print (second conjunct) is dead code. -/
theorem C4_missing_jwt_behavior (jtis : Nat → String) (now : Nat)
    (fs : FS) :
    script false jtis now fs =
      { exitCode := 1, stdout := [], fs := fs } ∧
    mainGuard false jtis now fs =
      { exitCode := 1, stdout := installHintLines, fs := fs } ∧
    installHintLines ≠ [] :=
  ⟨rfl, rfl, by decide⟩

/-- Witness for C9: two calls for the admin profile with distinct UUID
draws (as in two successive runs) have distinct decoded `jti`. -/
theorem C9_jti_fresh_witness :
    ∃ t1 t2, generate_token 0 "w-j-a" adminUser = some t1 ∧
      generate_token 1 "w-j-b" adminUser = some t2 ∧
      List.lookup "jti" t1.payload = some (.str "w-j-a") ∧
      List.lookup "jti" t2.payload = some (.str "w-j-b") ∧
      List.lookup "jti" t1.payload ≠ List.lookup "jti" t2.payload :=
  ⟨_, _, rfl, rfl, C9_jti_fresh 0 1 "w-j-a" "w-j-b" adminUser adminUser _ _
    (by decide) rfl rfl⟩
